import Mathlib

/-
Verification of the bempp-cl excerpt consisting of
`bempp/api/utils/helpers.py` (array normalization and parameter
resolution) and `bempp/api/operators/potential/laplace.py` (the four
Laplace potential operator factories).

The Python code is shallowly embedded: numpy arrays become a record of
the dtype, the abstract element contents and the layout flags that the
code inspects; `numpy.require` and `numpy.ndarray.astype` are modelled
after their documented copy semantics; the external collaborators
`PotentialAssembler` and `PotentialOperator` are opaque records that
capture exactly the arguments handed to them; the process-wide globals
`bempp.api.GLOBAL_PARAMETERS` and `bempp.api.DEFAULT_PRECISION` are
threaded explicitly as a `Globals` record.
-/

set_option autoImplicit false

namespace Bempp

/-- The numpy element types the helper code distinguishes.  `float32` and
`complex64` are the single-width types promoted by
`promote_to_double_precision`; the remaining constructors stand for all
other element types, which every modelled operation passes through. -/
inductive Dtype where
  | float32
  | float64
  | complex64
  | complex128
  | int32
  | int64
  deriving DecidableEq, Repr

/-- A numpy memory-order tag as used internally by `numpy.require`:
row-major, column-major, or "any" (no layout constraint). -/
inductive Order where
  | C
  | F
  | A
  deriving DecidableEq, Repr

/-- One entry of the `requirements` list handed to `numpy.require`:
ALIGNED, C_CONTIGUOUS, F_CONTIGUOUS, OWNDATA, WRITEABLE, ENSUREARRAY. -/
inductive Requirement where
  | A
  | C
  | F
  | O
  | W
  | E
  deriving DecidableEq, Repr

/-- A numpy array as seen by the helper code: its element type, its
abstract element contents (the modelled operations either preserve the
contents or widen them exactly, so one abstract payload type suffices),
its number of dimensions, and the layout flags that `numpy.require`
inspects.  Arrays of dimension at most one are both C- and F-contiguous
in numpy; the model keeps the flags as independent fields and lets
concrete instances pick realistic combinations. -/
structure NDArray where
  dtype : Dtype
  data : List Int
  ndim : Nat
  aligned : Bool
  writeable : Bool
  owndata : Bool
  c_contig : Bool
  f_contig : Bool
  deriving DecidableEq, Repr

/-- Whether an array is contiguous in the given memory order; order `A`
imposes no constraint. -/
def contigIn (a : NDArray) : Order → Bool
  | Order.C => a.c_contig
  | Order.F => a.f_contig
  | Order.A => true

/-- A freshly allocated copy of `a` in element type `dtype` and memory
order `order`, as produced by `numpy.ndarray.copy` / a copying
`numpy.array` call: contents preserved, all of ALIGNED, WRITEABLE and
OWNDATA set, contiguous in the requested order (and in both orders when
the array has dimension at most one). -/
def npCopy (a : NDArray) (dtype : Dtype) (order : Order) : NDArray :=
  { dtype := dtype
    data := a.data
    ndim := a.ndim
    aligned := true
    writeable := true
    owndata := true
    c_contig := decide (order = Order.C) || decide (a.ndim ≤ 1)
    f_contig := decide (order = Order.F) || decide (a.ndim ≤ 1) }

/-- Whether `numpy.array(a, dtype, order, copy=if_needed)` must copy:
exactly when the element type differs or the array is not contiguous in
the requested order. -/
def copyNeeded (a : NDArray) (dtype : Dtype) (order : Order) : Bool :=
  decide (a.dtype ≠ dtype) || !(contigIn a order)

/-- The memory order `numpy.require` extracts from its requirements
list: `F` wins over `C`, and with neither the order is unconstrained. -/
def requireOrder (reqs : List Requirement) : Order :=
  if Requirement.F ∈ reqs then Order.F
  else if Requirement.C ∈ reqs then Order.C
  else Order.A

/-- The flag check `numpy.require` performs after the conversion step:
every requested ALIGNED / OWNDATA / WRITEABLE flag must already hold.
(ENSUREARRAY governs ndarray subclassing, which the model has none of.) -/
def flagsOk (a : NDArray) (reqs : List Requirement) : Bool :=
  (!(decide (Requirement.A ∈ reqs)) || a.aligned) &&
  (!(decide (Requirement.O ∈ reqs)) || a.owndata) &&
  (!(decide (Requirement.W ∈ reqs)) || a.writeable)

/-- `numpy.require(a, dtype, requirements)` per its documented behavior:
first convert with `numpy.array(a, dtype, order, copy=if_needed)`, which
copies exactly when the dtype or the requested contiguity is not already
satisfied; then, if any remaining requested flag fails, return a fresh
copy in the requested order.  The second component records whether a new
array was allocated (`false` means the input object itself is
returned). -/
def require (a : NDArray) (dtype : Dtype) (reqs : List Requirement) :
    NDArray × Bool :=
  let order := requireOrder reqs
  let step :=
    if copyNeeded a dtype order then (npCopy a dtype order, true) else (a, false)
  if flagsOk step.1 reqs then step else (npCopy step.1 dtype order, true)

/-- The error class of the excerpt: `align_array` raises `ValueError`
(the spec calls it `InvalidArgument`) on a bad order tag. -/
inductive BemppError where
  | invalidArgument
  deriving DecidableEq, Repr

/-- `helpers.align_array(arr, dtype, order)`: order `"F"` requests
requirements `["A", "F", "O", "E"]`, order `"C"` requests
`["A", "C", "O", "E"]`, anything else raises; the result is the
`numpy.require` result paired with its allocation flag. -/
def align_array (arr : NDArray) (dtype : Dtype) (order : String) :
    Except BemppError (NDArray × Bool) :=
  if order = "F" then
    Except.ok (require arr dtype [Requirement.A, Requirement.F, Requirement.O, Requirement.E])
  else if order = "C" then
    Except.ok (require arr dtype [Requirement.A, Requirement.C, Requirement.O, Requirement.E])
  else
    Except.error BemppError.invalidArgument

/-- `numpy.ndarray.astype(dtype, copy=False)`: returns the array itself
when the element type already matches, otherwise a fresh converted copy
(contents widened exactly, layout kept, fresh-allocation flags set). -/
def astype (a : NDArray) (dtype : Dtype) : NDArray :=
  if a.dtype = dtype then a
  else { a with dtype := dtype, aligned := true, writeable := true, owndata := true }

/-- `helpers.promote_to_double_precision(array)`: `float32` arrays are
cast to `float64`, `complex64` arrays to `complex128`, and every other
array is returned unchanged. -/
def promote_to_double_precision (a : NDArray) : NDArray :=
  if a.dtype = Dtype.float32 then astype a Dtype.float64
  else if a.dtype = Dtype.complex64 then astype a Dtype.complex128
  else a

/-- The process-wide state of `bempp.api` that the excerpt reads: the
`GLOBAL_PARAMETERS` configuration object (of opaque type `P`) and the
`DEFAULT_PRECISION` string. -/
structure Globals (P : Type) where
  GLOBAL_PARAMETERS : P
  DEFAULT_PRECISION : String

/-- `helpers.assign_parameters(parameters)`: the global default when
`parameters` is `None`, otherwise `parameters` itself. -/
def assign_parameters {P : Type} (g : Globals P) (parameters : Option P) : P :=
  match parameters with
  | none => g.GLOBAL_PARAMETERS
  | some p => p

/-- `bempp.api.operators.OperatorDescriptor`, with its eight positional
fields in source order. -/
structure OperatorDescriptor where
  identifier : String
  options : List String
  kernel_type : String
  assembly_type : String
  precision : String
  is_complex : Bool
  singular_part : Option String
  kernel_dimension : Nat
  deriving DecidableEq, Repr

/-- The external `bempp.api.assembly.assembler.PotentialAssembler`,
opaque to the excerpt: a record of exactly the six arguments the
factories hand to it, in source order. -/
structure PotentialAssembler (S Pt D P : Type) where
  space : S
  points : Pt
  operator_descriptor : OperatorDescriptor
  device_interface : Option D
  assembler : String
  parameters : Option P
  deriving DecidableEq

/-- The external `bempp.api.assembly.potential_operator.PotentialOperator`,
opaque to the excerpt: it wraps the assembler it is constructed from. -/
structure PotentialOperator (S Pt D P : Type) where
  evaluator : PotentialAssembler S Pt D P
  deriving DecidableEq

/-- `laplace.single_layer`: resolves the precision against
`DEFAULT_PRECISION`, builds the single-layer descriptor and wraps a
`PotentialAssembler` in a `PotentialOperator`. -/
def single_layer {S Pt D P : Type} (g : Globals P) (space : S) (points : Pt)
    (parameters : Option P) (assembler : String) (device_interface : Option D)
    (precision : Option String) : PotentialOperator S Pt D P :=
  let precision :=
    match precision with
    | none => g.DEFAULT_PRECISION
    | some p => p
  let operator_descriptor : OperatorDescriptor :=
    ⟨"laplace_single_layer_potential", [], "laplace_single_layer",
      "default_scalar", precision, false, none, 1⟩
  ⟨⟨space, points, operator_descriptor, device_interface, assembler, parameters⟩⟩

/-- `laplace.single_layer_gradient`: as `single_layer`, with the
gradient descriptor (kernel dimension 3). -/
def single_layer_gradient {S Pt D P : Type} (g : Globals P) (space : S) (points : Pt)
    (parameters : Option P) (assembler : String) (device_interface : Option D)
    (precision : Option String) : PotentialOperator S Pt D P :=
  let precision :=
    match precision with
    | none => g.DEFAULT_PRECISION
    | some p => p
  let operator_descriptor : OperatorDescriptor :=
    ⟨"laplace_single_layer_potential_gradient", [], "laplace_single_layer_gradient",
      "laplace_single_layer_gradient", precision, false, none, 3⟩
  ⟨⟨space, points, operator_descriptor, device_interface, assembler, parameters⟩⟩

/-- `laplace.double_layer`: as `single_layer`, with the double-layer
descriptor. -/
def double_layer {S Pt D P : Type} (g : Globals P) (space : S) (points : Pt)
    (parameters : Option P) (assembler : String) (device_interface : Option D)
    (precision : Option String) : PotentialOperator S Pt D P :=
  let precision :=
    match precision with
    | none => g.DEFAULT_PRECISION
    | some p => p
  let operator_descriptor : OperatorDescriptor :=
    ⟨"laplace_double_layer_potential", [], "laplace_double_layer",
      "default_scalar", precision, false, none, 1⟩
  ⟨⟨space, points, operator_descriptor, device_interface, assembler, parameters⟩⟩

/-- `laplace.double_layer_gradient`: as `single_layer`, with the
double-layer gradient descriptor (kernel dimension 3). -/
def double_layer_gradient {S Pt D P : Type} (g : Globals P) (space : S) (points : Pt)
    (parameters : Option P) (assembler : String) (device_interface : Option D)
    (precision : Option String) : PotentialOperator S Pt D P :=
  let precision :=
    match precision with
    | none => g.DEFAULT_PRECISION
    | some p => p
  let operator_descriptor : OperatorDescriptor :=
    ⟨"laplace_double_layer_potential_gradient", [], "laplace_double_layer_gradient",
      "laplace_double_layer_gradient", precision, false, none, 3⟩
  ⟨⟨space, points, operator_descriptor, device_interface, assembler, parameters⟩⟩

/-- The relation between `kernel_dimension` and `assembly_type` stated as
the descriptor invariant: dimension 3 exactly on a gradient assembly path
(an `assembly_type` other than `"default_scalar"`), dimension 1 on the
scalar path. -/
abbrev gradientDimOk (d : OperatorDescriptor) : Prop :=
  (d.kernel_dimension = 3 ↔ d.assembly_type ≠ "default_scalar") ∧
  (d.kernel_dimension = 1 ↔ d.assembly_type = "default_scalar")

/-- An array already satisfying everything `align_array` requests for the
given dtype and order tag: matching element type, aligned, owning its
data, and contiguous in the requested order.  (Writability is not among
the requirements the code requests.) -/
def satisfiesRequirements (a : NDArray) (dtype : Dtype) (order : String) : Prop :=
  a.dtype = dtype ∧ a.aligned = true ∧ a.owndata = true ∧
  (order = "C" → a.c_contig = true) ∧ (order = "F" → a.f_contig = true)

/-- A double-precision one-dimensional array satisfying every requirement
of `align_array` except that it is read-only. -/
def nonWriteableInput : NDArray :=
  ⟨Dtype.float64, [0], 1, true, false, true, true, true⟩

/-- A single-precision two-dimensional C-ordered array; aligning it to
`float64` forces an allocation. -/
def singleInput : NDArray :=
  ⟨Dtype.float32, [0, 1], 2, true, true, true, true, false⟩

/-- The array `align_array` produces from `singleInput` with dtype
`float64` and order `"C"`. -/
def singleOutput : NDArray :=
  ⟨Dtype.float64, [0, 1], 2, true, true, true, true, false⟩

/-- A double-precision one-dimensional array satisfying every requirement
of `align_array`, writability included. -/
def alignedInput : NDArray :=
  ⟨Dtype.float64, [2], 1, true, true, true, true, true⟩

/-- A single-precision one-dimensional array used as a concrete promotion
input. -/
def float32Input : NDArray :=
  ⟨Dtype.float32, [7], 1, true, true, true, true, true⟩

/-- A fresh copy is contiguous in the order it was copied in. -/
theorem contigIn_npCopy (a : NDArray) (dtype : Dtype) (order : Order) :
    contigIn (npCopy a dtype order) order = true := by
  cases order <;> simp [npCopy, contigIn]

/-- A fresh copy passes every flag check `numpy.require` can request. -/
theorem flagsOk_npCopy (a : NDArray) (dtype : Dtype) (order : Order)
    (reqs : List Requirement) : flagsOk (npCopy a dtype order) reqs = true := by
  simp [flagsOk, npCopy]

/-- Guarantees of `numpy.require` whenever ALIGNED and OWNDATA are
requested: the result has the requested dtype, is aligned, owns its
data, is contiguous in the extracted order, and is writable whenever a
new array was allocated. -/
theorem require_props (a : NDArray) (dtype : Dtype) (reqs : List Requirement)
    (hA : Requirement.A ∈ reqs) (hO : Requirement.O ∈ reqs) :
    (require a dtype reqs).1.dtype = dtype ∧
    (require a dtype reqs).1.aligned = true ∧
    (require a dtype reqs).1.owndata = true ∧
    contigIn (require a dtype reqs).1 (requireOrder reqs) = true ∧
    ((require a dtype reqs).2 = true → (require a dtype reqs).1.writeable = true) := by
  by_cases hc : copyNeeded a dtype (requireOrder reqs) = true
  · have hres : require a dtype reqs = (npCopy a dtype (requireOrder reqs), true) := by
      simp [require, hc, flagsOk_npCopy]
    rw [hres]
    exact ⟨rfl, rfl, rfl, contigIn_npCopy a dtype (requireOrder reqs), fun _ => rfl⟩
  · rw [Bool.not_eq_true] at hc
    have hdt : a.dtype = dtype ∧ contigIn a (requireOrder reqs) = true := by
      simpa [copyNeeded] using hc
    by_cases hf : flagsOk a reqs = true
    · have hres : require a dtype reqs = (a, false) := by
        simp [require, hc, hf]
      rw [hres]
      rw [flagsOk, Bool.and_eq_true, Bool.and_eq_true] at hf
      obtain ⟨⟨hx1, hx2⟩, -⟩ := hf
      rw [decide_eq_true hA] at hx1
      rw [decide_eq_true hO] at hx2
      simp only [Bool.not_true, Bool.false_or] at hx1 hx2
      exact ⟨hdt.1, hx1, hx2, hdt.2, fun hco => by cases hco⟩
    · have hres : require a dtype reqs = (npCopy a dtype (requireOrder reqs), true) := by
        simp [require, hc, hf]
      rw [hres]
      exact ⟨rfl, rfl, rfl, contigIn_npCopy a dtype (requireOrder reqs), fun _ => rfl⟩

/-- `numpy.require` returns its input without allocating when the dtype
matches, the requested contiguity holds, the array is aligned and owns
its data, and writability is not requested. -/
theorem require_no_copy (a : NDArray) (dtype : Dtype) (reqs : List Requirement)
    (hW : Requirement.W ∉ reqs) (hdt : a.dtype = dtype)
    (hct : contigIn a (requireOrder reqs) = true)
    (hal : a.aligned = true) (how : a.owndata = true) :
    require a dtype reqs = (a, false) := by
  have hc : copyNeeded a dtype (requireOrder reqs) = false := by
    simp [copyNeeded, hdt, hct]
  have hf : flagsOk a reqs = true := by
    simp [flagsOk, hal, how, hW]
  simp [require, hc, hf]

/-- `align_array` reports an invalid argument exactly on order tags other
than `"C"` and `"F"`. -/
theorem align_array_error_iff (a : NDArray) (dtype : Dtype) (order : String) :
    align_array a dtype order = Except.error BemppError.invalidArgument ↔
      ¬(order = "C" ∨ order = "F") := by
  by_cases hF : order = "F"
  · simp [align_array, hF]
  · by_cases hC : order = "C" <;> simp [align_array, hF, hC]

/-- Guarantees on every successful `align_array` result: requested dtype,
aligned, owning its data, contiguous in the requested order, and
writable whenever a new array was allocated. -/
theorem align_array_ok_props (a : NDArray) (dtype : Dtype) (order : String)
    (r : NDArray) (copied : Bool)
    (h : align_array a dtype order = Except.ok (r, copied)) :
    r.dtype = dtype ∧ r.aligned = true ∧ r.owndata = true ∧
    (order = "C" → r.c_contig = true) ∧ (order = "F" → r.f_contig = true) ∧
    (copied = true → r.writeable = true) := by
  unfold align_array at h
  by_cases hF : order = "F"
  · rw [if_pos hF] at h
    injection h with h
    have props := require_props a dtype
      [Requirement.A, Requirement.F, Requirement.O, Requirement.E] (by decide) (by decide)
    rw [h] at props
    refine ⟨props.1, props.2.1, props.2.2.1, ?_, fun _ => props.2.2.2.1, props.2.2.2.2⟩
    intro hC
    rw [hC] at hF
    exact absurd hF (by decide)
  · rw [if_neg hF] at h
    by_cases hC : order = "C"
    · rw [if_pos hC] at h
      injection h with h
      have props := require_props a dtype
        [Requirement.A, Requirement.C, Requirement.O, Requirement.E] (by decide) (by decide)
      rw [h] at props
      refine ⟨props.1, props.2.1, props.2.2.1, fun _ => props.2.2.2.1, ?_, props.2.2.2.2⟩
      intro hFeq
      rw [hFeq] at hC
      exact absurd hC (by decide)
    · rw [if_neg hC] at h
      exact Except.noConfusion h

/-- `align_array` returns its input without allocating on a valid order
tag when the input already satisfies every requested requirement. -/
theorem align_array_no_copy (a : NDArray) (dtype : Dtype) (order : String)
    (hord : order = "C" ∨ order = "F")
    (hsat : satisfiesRequirements a dtype order) :
    align_array a dtype order = Except.ok (a, false) := by
  obtain ⟨hdt, hal, how, hc, hf⟩ := hsat
  rcases hord with hC | hF
  · subst hC
    have hnc := require_no_copy a dtype
      [Requirement.A, Requirement.C, Requirement.O, Requirement.E]
      (by decide) hdt (hc rfl) hal how
    unfold align_array
    rw [if_neg (by decide : ¬("C" : String) = "F"), if_pos rfl, hnc]
  · subst hF
    have hnc := require_no_copy a dtype
      [Requirement.A, Requirement.F, Requirement.O, Requirement.E]
      (by decide) hdt (hf rfl) hal how
    unfold align_array
    rw [if_pos rfl, hnc]

/-- C1: each of the four factories, called with its default optional
arguments, builds the descriptor of its row of the table — identifier,
kernel type, assembly type and kernel dimension as tabulated, empty
options, `is_complex` false and no singular part (precision resolves to
the global default). -/
theorem C1_default_descriptors_match_table {S Pt D P : Type} (g : Globals P)
    (s : S) (pt : Pt) :
    (single_layer g s pt none "dense" (none : Option D) none).evaluator.operator_descriptor =
      ⟨"laplace_single_layer_potential", [], "laplace_single_layer",
        "default_scalar", g.DEFAULT_PRECISION, false, none, 1⟩ ∧
    (single_layer_gradient g s pt none "dense" (none : Option D) none).evaluator.operator_descriptor =
      ⟨"laplace_single_layer_potential_gradient", [], "laplace_single_layer_gradient",
        "laplace_single_layer_gradient", g.DEFAULT_PRECISION, false, none, 3⟩ ∧
    (double_layer g s pt none "dense" (none : Option D) none).evaluator.operator_descriptor =
      ⟨"laplace_double_layer_potential", [], "laplace_double_layer",
        "default_scalar", g.DEFAULT_PRECISION, false, none, 1⟩ ∧
    (double_layer_gradient g s pt none "dense" (none : Option D) none).evaluator.operator_descriptor =
      ⟨"laplace_double_layer_potential_gradient", [], "laplace_double_layer_gradient",
        "laplace_double_layer_gradient", g.DEFAULT_PRECISION, false, none, 3⟩ :=
  ⟨rfl, rfl, rfl, rfl⟩

/-- C2: every descriptor any of the four factories constructs, for any
arguments, has kernel dimension 3 exactly when its assembly type names a
gradient path (is not `"default_scalar"`) and kernel dimension 1
otherwise. -/
theorem C2_kernel_dimension_invariant {S Pt D P : Type} (g : Globals P)
    (s : S) (pt : Pt) (pa : Option P) (asm : String) (dev : Option D)
    (pr : Option String) :
    gradientDimOk (single_layer g s pt pa asm dev pr).evaluator.operator_descriptor ∧
    gradientDimOk (single_layer_gradient g s pt pa asm dev pr).evaluator.operator_descriptor ∧
    gradientDimOk (double_layer g s pt pa asm dev pr).evaluator.operator_descriptor ∧
    gradientDimOk (double_layer_gradient g s pt pa asm dev pr).evaluator.operator_descriptor := by
  refine ⟨⟨?_, ?_⟩, ⟨?_, ?_⟩, ⟨?_, ?_⟩, ⟨?_, ?_⟩⟩
  · show (1 : Nat) = 3 ↔ ("default_scalar" : String) ≠ "default_scalar"
    decide
  · show (1 : Nat) = 1 ↔ ("default_scalar" : String) = "default_scalar"
    decide
  · show (3 : Nat) = 3 ↔ ("laplace_single_layer_gradient" : String) ≠ "default_scalar"
    decide
  · show (3 : Nat) = 1 ↔ ("laplace_single_layer_gradient" : String) = "default_scalar"
    decide
  · show (1 : Nat) = 3 ↔ ("default_scalar" : String) ≠ "default_scalar"
    decide
  · show (1 : Nat) = 1 ↔ ("default_scalar" : String) = "default_scalar"
    decide
  · show (3 : Nat) = 3 ↔ ("laplace_double_layer_gradient" : String) ≠ "default_scalar"
    decide
  · show (3 : Nat) = 1 ↔ ("laplace_double_layer_gradient" : String) = "default_scalar"
    decide

/-- C3: for every factory call, an unspecified precision resolves to the
global `DEFAULT_PRECISION`, and a supplied precision is used verbatim in
the constructed descriptor. -/
theorem C3_precision_resolution {S Pt D P : Type} (g : Globals P)
    (s : S) (pt : Pt) (pa : Option P) (asm : String) (dev : Option D) :
    ((single_layer g s pt pa asm dev none).evaluator.operator_descriptor.precision =
        g.DEFAULT_PRECISION ∧
      ∀ p : String,
        (single_layer g s pt pa asm dev (some p)).evaluator.operator_descriptor.precision = p) ∧
    ((single_layer_gradient g s pt pa asm dev none).evaluator.operator_descriptor.precision =
        g.DEFAULT_PRECISION ∧
      ∀ p : String,
        (single_layer_gradient g s pt pa asm dev (some p)).evaluator.operator_descriptor.precision = p) ∧
    ((double_layer g s pt pa asm dev none).evaluator.operator_descriptor.precision =
        g.DEFAULT_PRECISION ∧
      ∀ p : String,
        (double_layer g s pt pa asm dev (some p)).evaluator.operator_descriptor.precision = p) ∧
    ((double_layer_gradient g s pt pa asm dev none).evaluator.operator_descriptor.precision =
        g.DEFAULT_PRECISION ∧
      ∀ p : String,
        (double_layer_gradient g s pt pa asm dev (some p)).evaluator.operator_descriptor.precision = p) :=
  ⟨⟨rfl, fun _ => rfl⟩, ⟨rfl, fun _ => rfl⟩, ⟨rfl, fun _ => rfl⟩, ⟨rfl, fun _ => rfl⟩⟩

/-- C4 counterexample: `single_layer` called without a parameters
argument hands the assembler a null parameters value, not the
`GLOBAL_PARAMETERS` object of the (here nonempty) global state — the
factories perform no parameter resolution before the hand-off. -/
theorem C4_assembler_receives_null_parameters :
    (single_layer (⟨0, "double"⟩ : Globals Nat) (0 : Nat) (0 : Nat) none "dense"
        (none : Option Nat) none).evaluator.parameters = none ∧
    ¬((single_layer (⟨0, "double"⟩ : Globals Nat) (0 : Nat) (0 : Nat) none "dense"
        (none : Option Nat) none).evaluator.parameters =
      some (Globals.GLOBAL_PARAMETERS (⟨0, "double"⟩ : Globals Nat))) :=
  ⟨rfl, by decide⟩

/-- C4 amended: every factory hands the caller-supplied parameters value
through to the `PotentialAssembler` unchanged (null when unspecified);
the resolution against `GLOBAL_PARAMETERS` is not performed in the
factory — applying `assign_parameters` to the handed value is what
yields the resolved configuration. -/
theorem C4_parameters_forwarded_unresolved {S Pt D P : Type} (g : Globals P)
    (s : S) (pt : Pt) (pa : Option P) (asm : String) (dev : Option D)
    (pr : Option String) :
    ((single_layer g s pt pa asm dev pr).evaluator.parameters = pa ∧
      assign_parameters g (single_layer g s pt pa asm dev pr).evaluator.parameters =
        pa.getD g.GLOBAL_PARAMETERS) ∧
    ((single_layer_gradient g s pt pa asm dev pr).evaluator.parameters = pa ∧
      assign_parameters g (single_layer_gradient g s pt pa asm dev pr).evaluator.parameters =
        pa.getD g.GLOBAL_PARAMETERS) ∧
    ((double_layer g s pt pa asm dev pr).evaluator.parameters = pa ∧
      assign_parameters g (double_layer g s pt pa asm dev pr).evaluator.parameters =
        pa.getD g.GLOBAL_PARAMETERS) ∧
    ((double_layer_gradient g s pt pa asm dev pr).evaluator.parameters = pa ∧
      assign_parameters g (double_layer_gradient g s pt pa asm dev pr).evaluator.parameters =
        pa.getD g.GLOBAL_PARAMETERS) := by
  refine ⟨⟨rfl, ?_⟩, ⟨rfl, ?_⟩, ⟨rfl, ?_⟩, ⟨rfl, ?_⟩⟩ <;> cases pa <;> rfl

/-- C5: for every array and dtype, `align_array` fails with the invalid
argument error exactly when the order tag is neither `"C"` nor `"F"`
(and hence succeeds without that error on `"C"` and `"F"`). -/
theorem C5_align_array_rejects_bad_order (a : NDArray) (dtype : Dtype)
    (order : String) :
    align_array a dtype order = Except.error BemppError.invalidArgument ↔
      order ≠ "C" ∧ order ≠ "F" := by
  rw [align_array_error_iff]
  exact not_or

/-- C6 counterexample: a read-only double-precision array that already
satisfies every requested requirement is returned unchanged by
`align_array`, so the result is not writable — the code never requests
the WRITEABLE flag. -/
theorem C6_result_can_be_nonwritable :
    align_array nonWriteableInput Dtype.float64 "C" =
      Except.ok (nonWriteableInput, false) ∧
    nonWriteableInput.writeable = false :=
  ⟨rfl, rfl⟩

/-- C6 amended: every successful `align_array` result has the requested
element type, is aligned, owns its data and is contiguous in the
requested order; it is moreover writable whenever a new array was
allocated, but an already-satisfying read-only input is passed through
unchanged and stays read-only. -/
theorem C6_align_array_output_guarantees (a : NDArray) (dtype : Dtype)
    (order : String) (r : NDArray) (copied : Bool)
    (h : align_array a dtype order = Except.ok (r, copied)) :
    r.dtype = dtype ∧ r.aligned = true ∧ r.owndata = true ∧
    (order = "C" → r.c_contig = true) ∧ (order = "F" → r.f_contig = true) ∧
    (copied = true → r.writeable = true) :=
  align_array_ok_props a dtype order r copied h

/-- C6 witness: aligning the single-precision C-ordered `singleInput` to
double precision allocates, and the guarantees hold of the result. -/
theorem C6_align_array_output_guarantees_witness :
    singleOutput.dtype = Dtype.float64 ∧ singleOutput.aligned = true ∧
    singleOutput.owndata = true ∧
    ("C" = "C" → singleOutput.c_contig = true) ∧
    ("C" = "F" → singleOutput.f_contig = true) ∧
    (true = true → singleOutput.writeable = true) :=
  C6_align_array_output_guarantees singleInput Dtype.float64 "C" singleOutput true
    rfl

/-- C7: an input that already satisfies every requirement of
`align_array` for the given dtype and valid order tag is returned
unchanged with no allocation; consequently `align_array` is idempotent —
re-aligning any successful result with the same dtype and order returns
that result unchanged with no allocation. -/
theorem C7_align_array_no_copy_idempotent (a : NDArray) (dtype : Dtype)
    (order : String) :
    ((order = "C" ∨ order = "F") → satisfiesRequirements a dtype order →
      align_array a dtype order = Except.ok (a, false)) ∧
    (∀ r copied, align_array a dtype order = Except.ok (r, copied) →
      align_array r dtype order = Except.ok (r, false)) := by
  constructor
  · exact fun hord hsat => align_array_no_copy a dtype order hord hsat
  · intro r copied h
    have hord : order = "C" ∨ order = "F" := by
      by_contra hn
      rw [(align_array_error_iff a dtype order).2 hn] at h
      exact Except.noConfusion h
    have props := align_array_ok_props a dtype order r copied h
    exact align_array_no_copy r dtype order hord
      ⟨props.1, props.2.1, props.2.2.1, props.2.2.2.1, props.2.2.2.2.1⟩

/-- C7 witness: the already-aligned `alignedInput` passes through with no
allocation, and the freshly allocated result of aligning `singleInput`
is a fixed point of a second alignment. -/
theorem C7_align_array_no_copy_idempotent_witness :
    align_array alignedInput Dtype.float64 "C" = Except.ok (alignedInput, false) ∧
    align_array singleOutput Dtype.float64 "C" = Except.ok (singleOutput, false) :=
  ⟨(C7_align_array_no_copy_idempotent alignedInput Dtype.float64 "C").1
      (Or.inl rfl) ⟨rfl, rfl, rfl, fun _ => rfl, fun _ => rfl⟩,
    (C7_align_array_no_copy_idempotent singleInput Dtype.float64 "C").2
      singleOutput true rfl⟩

/-- C8: `promote_to_double_precision` maps a `float32` array to the
equivalent `float64` array and a `complex64` array to the equivalent
`complex128` array, returns arrays of any other element type unchanged,
and is idempotent. -/
theorem C8_promote_to_double_precision_spec (a : NDArray) :
    (a.dtype = Dtype.float32 →
      (promote_to_double_precision a).dtype = Dtype.float64 ∧
        (promote_to_double_precision a).data = a.data) ∧
    (a.dtype = Dtype.complex64 →
      (promote_to_double_precision a).dtype = Dtype.complex128 ∧
        (promote_to_double_precision a).data = a.data) ∧
    (a.dtype ≠ Dtype.float32 → a.dtype ≠ Dtype.complex64 →
      promote_to_double_precision a = a) ∧
    promote_to_double_precision (promote_to_double_precision a) =
      promote_to_double_precision a := by
  obtain ⟨dt, data, ndim, al, w, o, c, f⟩ := a
  cases dt <;> simp [promote_to_double_precision, astype]

/-- C8 witness: promoting the concrete `float32` array yields a `float64`
array with the same contents, and promoting twice equals promoting
once. -/
theorem C8_promote_to_double_precision_spec_witness :
    ((promote_to_double_precision float32Input).dtype = Dtype.float64 ∧
      (promote_to_double_precision float32Input).data = float32Input.data) ∧
    promote_to_double_precision (promote_to_double_precision float32Input) =
      promote_to_double_precision float32Input :=
  ⟨(C8_promote_to_double_precision_spec float32Input).1 rfl,
    (C8_promote_to_double_precision_spec float32Input).2.2.2⟩

/-- C9: `assign_parameters` of a null argument is exactly the global
`GLOBAL_PARAMETERS` object, and of any non-null argument is exactly that
argument; the function is a pure selection. -/
theorem C9_assign_parameters_selection {P : Type} (g : Globals P) :
    assign_parameters g none = g.GLOBAL_PARAMETERS ∧
    ∀ p : P, assign_parameters g (some p) = p :=
  ⟨rfl, fun _ => rfl⟩

/-- C10: each factory's entire result — descriptor and every argument
handed to the assembler — is unchanged between two global states that
agree on `DEFAULT_PRECISION` but differ arbitrarily in
`GLOBAL_PARAMETERS`; and with an explicitly supplied precision the
result is independent of the whole global state. -/
theorem C10_factories_independent_of_globals {S Pt D P : Type}
    (g1 g2 : Globals P) (s : S) (pt : Pt) (pa : Option P) (asm : String)
    (dev : Option D) :
    (g1.DEFAULT_PRECISION = g2.DEFAULT_PRECISION →
      ∀ pr : Option String,
        single_layer g1 s pt pa asm dev pr = single_layer g2 s pt pa asm dev pr ∧
        single_layer_gradient g1 s pt pa asm dev pr =
          single_layer_gradient g2 s pt pa asm dev pr ∧
        double_layer g1 s pt pa asm dev pr = double_layer g2 s pt pa asm dev pr ∧
        double_layer_gradient g1 s pt pa asm dev pr =
          double_layer_gradient g2 s pt pa asm dev pr) ∧
    (∀ p : String,
      single_layer g1 s pt pa asm dev (some p) =
        single_layer g2 s pt pa asm dev (some p) ∧
      single_layer_gradient g1 s pt pa asm dev (some p) =
        single_layer_gradient g2 s pt pa asm dev (some p) ∧
      double_layer g1 s pt pa asm dev (some p) =
        double_layer g2 s pt pa asm dev (some p) ∧
      double_layer_gradient g1 s pt pa asm dev (some p) =
        double_layer_gradient g2 s pt pa asm dev (some p)) := by
  constructor
  · intro h pr
    cases pr <;>
      simp [single_layer, single_layer_gradient, double_layer,
        double_layer_gradient, h]
  · intro p
    exact ⟨rfl, rfl, rfl, rfl⟩

/-- C10 witness: two global states sharing the default precision but with
different global parameter objects give the same `single_layer`
result. -/
theorem C10_factories_independent_of_globals_witness :
    single_layer (⟨0, "double"⟩ : Globals Nat) (0 : Nat) (0 : Nat) none "dense"
        (none : Option Nat) none =
      single_layer (⟨1, "double"⟩ : Globals Nat) (0 : Nat) (0 : Nat) none "dense"
        (none : Option Nat) none :=
  ((C10_factories_independent_of_globals (⟨0, "double"⟩ : Globals Nat)
      (⟨1, "double"⟩ : Globals Nat) (0 : Nat) (0 : Nat) none "dense"
      (none : Option Nat)).1 rfl none).1

end Bempp
